import Mathlib

/-!
Shallow embedding of `examples/test-websocket.py`, a WebSocket smoke-test
client.  The script registers four lifecycle callbacks (`on_open`,
`on_message`, `on_error`, `on_close`) on a `WebSocketApp`, connects to a
hardcoded URI, and blocks in `run_forever`.  We model each callback as the
finite list of observable actions it performs, and a whole execution as the
actions of the startup code followed by the actions produced by dispatching
an arbitrary schedule of library-delivered lifecycle events.  Sleep
durations (Python floats `0.5` and `1`) are modelled exactly as rationals.
-/

namespace TestWebsocket

/-- Console lines the script can print.  Each `print` in the source uses a
fixed format string; the constructor records the format and the varying
payload (the f-string interpoland), and `render` recovers the exact text. -/
inductive Line where
  | connecting (url : String)
  | installing
  | connected
  | sent (msg : String)
  | received (msg : String)
  | errorLine (err : String)
  | closed
  deriving DecidableEq

/-- Exact text of each console line, as produced by the source's `print`
calls (f-strings become string concatenation). -/
def render : Line → String
  | Line.connecting url => "Connecting to " ++ url ++ "..."
  | Line.installing => "Installing websocket-client..."
  | Line.connected => "✅ Connected to server"
  | Line.sent msg => "📤 Sent: " ++ msg
  | Line.received msg => "📩 Received: " ++ msg
  | Line.errorLine err => "❌ Error: " ++ err
  | Line.closed => "🔌 Connection closed"

/-- Observable actions of the running script: printing a console line,
sending a text frame on the socket (`ws.send`), sleeping for a duration in
time units (`time.sleep`), and locally starting the close handshake
(`ws.close`). -/
inductive Event where
  | print (line : Line)
  | send (payload : String)
  | sleep (duration : ℚ)
  | close
  deriving DecidableEq

/-- The hardcoded target URI (`server_url` in `__main__`). -/
def server_url : String := "ws://localhost:8096/ws"

/-- The fixed message list built inside `on_open`. -/
def messages : List String :=
  ["Hello from Python client!",
   "This is a test message",
   "WebSocket is working!"]

/-- Body of the `for msg in messages` loop in `on_open`: send the message,
print the sent confirmation, sleep 0.5, then continue with the rest. -/
def sendLoop : List String → List Event
  | [] => []
  | msg :: rest =>
      Event.send msg :: Event.print (Line.sent msg) :: Event.sleep (1/2) ::
        sendLoop rest

/-- Actions of the `on_open` callback: print the connected notice, run the
send loop over `messages`, sleep 1, then call `ws.close()`. -/
def on_open : List Event :=
  Event.print Line.connected ::
    (sendLoop messages ++ [Event.sleep 1, Event.close])

/-- Actions of the `on_message` callback: print the received message. -/
def on_message (message : String) : List Event :=
  [Event.print (Line.received message)]

/-- Actions of the `on_error` callback: print the error. -/
def on_error (error : String) : List Event :=
  [Event.print (Line.errorLine error)]

/-- Actions of the `on_close` callback.  Both arguments are accepted and
ignored, exactly as in the source. -/
def on_close (close_status_code : Option Nat) (close_msg : Option String) :
    List Event :=
  [Event.print Line.closed]

/-- A lifecycle event delivered by the websocket-client library to the
registered callbacks. -/
inductive LibEvent where
  | openConn
  | message (m : String)
  | errorEvt (e : String)
  | closeEvt (code : Option Nat) (msg : Option String)
  deriving DecidableEq

/-- Callback registration of the `WebSocketApp` constructor: which handler
runs for each lifecycle event. -/
def dispatch : LibEvent → List Event
  | LibEvent.openConn => on_open
  | LibEvent.message m => on_message m
  | LibEvent.errorEvt e => on_error e
  | LibEvent.closeEvt code msg => on_close code msg

/-- Actions produced by `ws.run_forever()` while the library delivers the
given schedule of lifecycle events. -/
def run_forever : List LibEvent → List Event
  | [] => []
  | e :: rest => dispatch e ++ run_forever rest

/-- A whole execution of `__main__` after the import succeeds: print the
connect-attempt line, then run the event loop over the schedule. -/
def main_run (schedule : List LibEvent) : List Event :=
  Event.print (Line.connecting server_url) :: run_forever schedule

/-- The URI handed to the `WebSocketApp` constructor.  The script hardcodes
`server_url` and never reads `sys.argv` or the process environment, so the
result ignores both parameters. -/
def constructor_url (argv : List String) (env : List (String × String)) :
    String :=
  server_url

/-- One step performed by the import block at the top of the script. -/
inductive SetupStep where
  | importAttempt (module : String) (ok : Bool)
  | print (line : Line)
  | runCommand (argvList : List String)
  deriving DecidableEq

/-- The `try: import websocket / except ImportError:` block.  `exe` is
`sys.executable`; `available` says whether the first import succeeds.  On
failure the script prints the installing notice, runs
`subprocess.check_call([sys.executable, "-m", "pip", "install",
"websocket-client"])`, and imports again. -/
def import_websocket (exe : String) (available : Bool) : List SetupStep :=
  if available then
    [SetupStep.importAttempt "websocket" true]
  else
    [SetupStep.importAttempt "websocket" false,
     SetupStep.print Line.installing,
     SetupStep.runCommand [exe, "-m", "pip", "install", "websocket-client"],
     SetupStep.importAttempt "websocket" true]

/-- The whole script: the import block, then the `__main__` run. -/
def script (exe : String) (available : Bool) (schedule : List LibEvent) :
    List SetupStep × List Event :=
  (import_websocket exe available, main_run schedule)

/-- Payloads of the send events of a trace, in order. -/
def sentPayloads (es : List Event) : List String :=
  es.filterMap fun e =>
    match e with
    | Event.send s => some s
    | _ => none

/-- Whether an event is a socket send or a sent-confirmation line. -/
def isSendish : Event → Bool
  | Event.send _ => true
  | Event.print (Line.sent _) => true
  | _ => false

/-- A trace with no socket send and no sent-confirmation line. -/
def sendFree (es : List Event) : Bool :=
  es.all fun e => !(isSendish e)

/-- Whether every event of a trace is a console print. -/
def printOnly (es : List Event) : Bool :=
  es.all fun e =>
    match e with
    | Event.print _ => true
    | _ => false

/-- Suffix of a trace strictly after its last send event (empty when there
is no send). -/
def afterLastSend : List Event → List Event
  | [] => []
  | Event.send _ :: rest =>
      if (sentPayloads rest).isEmpty then rest else afterLastSend rest
  | _ :: rest => afterLastSend rest

/-- Prefix of a trace strictly before its first close event. -/
def upToClose : List Event → List Event
  | [] => []
  | Event.close :: _ => []
  | e :: rest => e :: upToClose rest

/-- Total sleeping time of a trace, in time units. -/
def sleepTotal : List Event → ℚ
  | [] => 0
  | Event.sleep d :: rest => d + sleepTotal rest
  | _ :: rest => sleepTotal rest

theorem sendFree_append (a b : List Event) :
    sendFree (a ++ b) = (sendFree a && sendFree b) :=
  List.all_append

theorem dispatch_sendFree (e : LibEvent) (h : e ≠ LibEvent.openConn) :
    sendFree (dispatch e) = true := by
  cases e with
  | openConn => exact absurd rfl h
  | message m => rfl
  | errorEvt s => rfl
  | closeEvt c m => rfl

/-- C1: on a successful open, the client first prints the connected notice,
then sends the three fixed messages strictly in their listed order, printing
a sent confirmation immediately after each send and before the next send,
with a 0.5 time-unit pause between consecutive sends; no message is skipped,
duplicated or reordered.  The full event list of `on_open` is computed
explicitly. -/
theorem c1_open_sequence :
    on_open =
      [Event.print Line.connected,
       Event.send "Hello from Python client!",
       Event.print (Line.sent "Hello from Python client!"),
       Event.sleep (1/2),
       Event.send "This is a test message",
       Event.print (Line.sent "This is a test message"),
       Event.sleep (1/2),
       Event.send "WebSocket is working!",
       Event.print (Line.sent "WebSocket is working!"),
       Event.sleep (1/2),
       Event.sleep 1, Event.close] ∧
    sentPayloads on_open = messages :=
  ⟨rfl, rfl⟩

/-- C2: after the last message is sent, the client sleeps at least 1 time
unit (in fact 0.5 from the final loop iteration plus the extra 1) before it
actively calls `close`, and the close does occur after the last send. -/
theorem c2_delay_before_close :
    Event.close ∈ afterLastSend on_open ∧
    1 ≤ sleepTotal (upToClose (afterLastSend on_open)) := by
  have h : sleepTotal (upToClose (afterLastSend on_open)) = 1/2 + (1 + 0) :=
    rfl
  refine ⟨by decide, ?_⟩
  rw [h]; norm_num

/-- C3: the URI passed to the `WebSocketApp` constructor is the hardcoded
constant `ws://localhost:8096/ws` for every invocation, whatever the
command line and the environment hold. -/
theorem c3_hardcoded_url (argv : List String) (env : List (String × String)) :
    constructor_url argv env = "ws://localhost:8096/ws" :=
  rfl

/-- C4: in any execution whose schedule never delivers the open event, the
trace contains no socket send and no sent-confirmation line: all sends live
inside the open callback. -/
theorem c4_no_open_no_send (schedule : List LibEvent)
    (h : LibEvent.openConn ∉ schedule) :
    sendFree (main_run schedule) = true := by
  have hrun : sendFree (run_forever schedule) = true := by
    induction schedule with
    | nil => rfl
    | cons e rest ih =>
        rw [List.mem_cons, not_or] at h
        obtain ⟨h1, h2⟩ := h
        have hd : sendFree (dispatch e) = true :=
          dispatch_sendFree e fun he => h1 he.symm
        show sendFree (dispatch e ++ run_forever rest) = true
        rw [sendFree_append, hd, ih h2]
        rfl
  show sendFree (Event.print (Line.connecting server_url)
      :: run_forever schedule) = true
  have : sendFree (Event.print (Line.connecting server_url)
      :: run_forever schedule)
      = sendFree (run_forever schedule) := rfl
  rw [this, hrun]

/-- C4 witness: a concrete connection-refused schedule (error then close,
never open) yields a trace with no send and no sent-confirmation line. -/
theorem c4_no_open_no_send_witness :
    sendFree (main_run
      [LibEvent.errorEvt "Connection refused",
       LibEvent.closeEvt none none]) = true :=
  c4_no_open_no_send _ (by decide)

/-- C5: when the first import of the websocket library fails, the script
prints the installing notice, runs `pip install websocket-client` through
the host package manager, imports again, and then proceeds to connect; the
error callback performs no retry, so no protocol-level failure is ever
retried. -/
theorem c5_auto_install (exe : String) (schedule : List LibEvent) :
    SetupStep.runCommand [exe, "-m", "pip", "install", "websocket-client"]
        ∈ import_websocket exe false ∧
    (import_websocket exe false).getLast? =
        some (SetupStep.importAttempt "websocket" true) ∧
    (script exe false schedule).2.head? =
        some (Event.print (Line.connecting server_url)) ∧
    ∀ e, printOnly (dispatch (LibEvent.errorEvt e)) = true := by
  refine ⟨?_, rfl, rfl, fun e => rfl⟩
  simp [import_websocket]

/-- C6: the close callback prints the same single closed notice for every
status code and close message: its output is independent of both arguments,
and each close event produces exactly that one notification. -/
theorem c6_close_notice_uniform (c₁ c₂ : Option Nat)
    (m₁ m₂ : Option String) :
    on_close c₁ m₁ = on_close c₂ m₂ ∧
    on_close c₁ m₁ = [Event.print Line.closed] :=
  ⟨rfl, rfl⟩

/-- C7: for every inbound message, the message handler prints exactly the
received line for that message and performs no other action: every event it
produces is a console print, so it never sends and never closes. -/
theorem c7_message_print_only (m : String) :
    on_message m = [Event.print (Line.received m)] ∧
    printOnly (on_message m) = true :=
  ⟨rfl, rfl⟩

/-- C8: for every error event, the error handler prints exactly the error
line and does nothing else: every event it produces is a console print, so
there is no retry, no reconnect and no send. -/
theorem c8_error_print_only (err : String) :
    on_error err = [Event.print (Line.errorLine err)] ∧
    printOnly (on_error err) = true :=
  ⟨rfl, rfl⟩

/-- C9: the 0.5 time-unit pause also runs after the final message, so the
total sleeping time between the last send and the local close call is
exactly 0.5 + 1 = 1.5 time units, not 1. -/
theorem c9_post_send_delay_is_one_and_a_half :
    sleepTotal (upToClose (afterLastSend on_open)) = 3/2 ∧
    sleepTotal (upToClose (afterLastSend on_open)) ≠ 1 := by
  have h : sleepTotal (upToClose (afterLastSend on_open)) = 1/2 + (1 + 0) :=
    rfl
  rw [h]
  norm_num

/-- C10: the fixed message sequence is exactly the three listed payloads in
order, the open callback sends exactly those payloads in that order, and it
initiates local closure exactly once, after the last send. -/
theorem c10_fixed_messages_single_close :
    messages = ["Hello from Python client!", "This is a test message",
                "WebSocket is working!"] ∧
    sentPayloads on_open = messages ∧
    (on_open.filter fun e => e == Event.close).length = 1 ∧
    Event.close ∈ afterLastSend on_open := by
  refine ⟨rfl, rfl, rfl, by decide⟩

end TestWebsocket
